import Mathlib

/-
Verification of the link-liveness pipeline of twitter-cleanser
(src/twitter-cleanser.py).

Modelling conventions.  Tweets are dynamic JSON dictionaries in the source;
here a tweet is a structure of `Option` fields, `none` meaning the key is
absent.  A dictionary access `tweet[k]` that may raise `KeyError` is
modelled in the `Except String` monad, the error value naming the missing
key.  Network probes (`requests.head` together with the two handled
exception classes `requests.exceptions.Timeout` and
`requests.ConnectionError`) are modelled by an oracle
`probe : String → ProbeOutcome` giving, per URL, either the HEAD status
code, a timeout, or a connection-level failure.  Files are modelled as the
list of their lines, and `json.loads` on a line by an abstract
`parse : String → Option Tweet` (`none` = `json.JSONDecodeError`).
-/

namespace TwitterCleanser

/-- One entry of a tweet's `entities.urls` array.  The source reads only the
`expanded_url` field of such entries, so only it is modelled. -/
structure UrlEntity where
  expanded_url : String
  deriving DecidableEq

/-- A tweet dictionary.  Fields model exactly the keys the source reads or
writes: `id`, `created_at`, `text`, `retweeted`, `entities.urls` (flattened
to `entities_urls`), `urls` and `bad`; `none` means the key is absent.
Candidate records produced by `filter_tweets_with_urls` are the same
dictionaries with a different set of keys present. -/
structure Tweet where
  id : Option Nat := none
  created_at : Option String := none
  text : Option String := none
  retweeted : Option Bool := none
  entities_urls : Option (List UrlEntity) := none
  urls : Option (List String) := none
  bad : Option Bool := none
  deriving DecidableEq

/-- Python's `s.startswith(pre)`: literal, case-sensitive, no trimming. -/
def startswith (s pre : String) : Bool :=
  List.isPrefixOf pre.data s.data

/-- `is_retweet` (src/twitter-cleanser.py:163-175): true when
`tweet_json['retweeted']` is truthy, or `tweet_json['text']` starts with
`'RT'`; a missing key raises `KeyError`. -/
def is_retweet (t : Tweet) : Except String Bool :=
  match t.retweeted with
  | none => Except.error "retweeted"
  | some true => Except.ok true
  | some false =>
    match t.text with
    | none => Except.error "text"
    | some txt =>
      if startswith txt "RT" then Except.ok true else Except.ok false

/-- `contains_url` (src/twitter-cleanser.py:178-186): truthiness of
`tweet_json['entities']['urls']`, i.e. the list is non-empty; a missing
`entities` key raises `KeyError`. -/
def contains_url (t : Tweet) : Except String Bool :=
  match t.entities_urls with
  | none => Except.error "entities"
  | some us => if us.isEmpty then Except.ok false else Except.ok true

/-- `filter_retweets` (src/twitter-cleanser.py:117-118): the list
comprehension keeps tweets for which `is_retweet` is false, evaluating the
predicate left to right; the first `KeyError` propagates. -/
def filter_retweets : List Tweet → Except String (List Tweet)
  | [] => Except.ok []
  | t :: ts =>
    match is_retweet t with
    | Except.error e => Except.error e
    | Except.ok r =>
      match filter_retweets ts with
      | Except.error e => Except.error e
      | Except.ok rest =>
        if r then Except.ok rest else Except.ok (t :: rest)

/-- `filter_tweets_with_urls` (src/twitter-cleanser.py:121-139): keeps
tweets passing `contains_url`; each kept tweet becomes a fresh dictionary
holding the keys present among `id`, `created_at`, `text` (the
`tweet.keys() & \x7b'id', 'created_at', 'text'\x7d` comprehension), plus
`urls` (the `expanded_url` of each `entities.urls` entry, in order) and
`bad := False`. -/
def filter_tweets_with_urls : List Tweet → Except String (List Tweet)
  | [] => Except.ok []
  | t :: ts =>
    match contains_url t with
    | Except.error e => Except.error e
    | Except.ok c =>
      if c then
        match t.entities_urls with
        | none => Except.error "entities"
        | some eus =>
          match filter_tweets_with_urls ts with
          | Except.error e => Except.error e
          | Except.ok rest =>
            Except.ok ({ id := t.id, created_at := t.created_at,
                         text := t.text,
                         urls := some (eus.map UrlEntity.expanded_url),
                         bad := some false } :: rest)
      else
        filter_tweets_with_urls ts

/-- Outcome of one `requests.head` probe as the source distinguishes them:
a response with a status code, a `requests.exceptions.Timeout`, or a
`requests.ConnectionError`. -/
inductive ProbeOutcome where
  | status (code : Nat)
  | timeout
  | connError
  deriving DecidableEq

/-- The `bad_status` tuple of `check_urls_in_tweet`
(src/twitter-cleanser.py:147). -/
def bad_status : List Nat := [400, 401, 402, 404, 406, 410, 413, 500, 502, 504]

/-- The per-probe dead classification performed by the loop body of
`check_urls_in_tweet`: a status code in `bad_status`, a timeout, or a
connection error sets `tweet['bad'] = True`; anything else leaves it
unchanged (hence the URL counts as alive). -/
def probe_dead (o : ProbeOutcome) : Bool :=
  match o with
  | ProbeOutcome.status code => bad_status.contains code
  | ProbeOutcome.timeout => true
  | ProbeOutcome.connError => true

/-- The `for url in tweet['urls']` loop of `check_urls_in_tweet`
(src/twitter-cleanser.py:148-159), threading the current value of the
`bad` key (`none` when the key is absent).  Each iteration probes its URL;
a dead verdict assigns `tweet['bad'] = True` (inserting the key); then
`if tweet['bad']: break` reads the key — `KeyError` if it is still absent,
break if truthy. -/
def check_loop (probe : String → ProbeOutcome) :
    List String → Option Bool → Except String (Option Bool)
  | [], b => Except.ok b
  | u :: us, b =>
    match (if probe_dead (probe u) then some true else b : Option Bool) with
    | none => Except.error "bad"
    | some true => Except.ok (some true)
    | some false => check_loop probe us (some false)

/-- `check_urls_in_tweet` (src/twitter-cleanser.py:142-160): runs the URL
loop over `tweet['urls']` and returns the same dictionary with the `bad`
key as the loop left it. -/
def check_urls_in_tweet (probe : String → ProbeOutcome) (t : Tweet) :
    Except String Tweet :=
  match t.urls with
  | none => Except.error "urls"
  | some us =>
    match check_loop probe us t.bad with
    | Except.error e => Except.error e
    | Except.ok b => Except.ok { t with bad := b }

/-- `load_tweets_from_file` (src/twitter-cleanser.py:71-86) on the lines of
an existing file: appends `json.loads(line)` for each line in order; the
`except json.JSONDecodeError` handler sits outside the loop, so the first
unparsable line prints a message, aborts the loop, and the tweets
accumulated so far are returned. -/
def load_tweets_from_file (parse : String → Option Tweet) :
    List String → List Tweet
  | [] => []
  | l :: ls =>
    match parse l with
    | some t => t :: load_tweets_from_file parse ls
    | none => []

/-- `pool.imap_unordered(check_urls_in_tweet, cands)` with
`processes = workers` (src/twitter-cleanser.py:234-236): every candidate is
processed exactly once by some worker, each application being the pure
function `check_urls_in_tweet` of the candidate and the network oracle;
only the arrival order of results is scheduler-dependent, modelled by the
`completion` reordering (constrained to a permutation in the theorems). -/
def scanAll (probe : String → ProbeOutcome) (workers : Nat)
    (completion : List (Except String Tweet) → List (Except String Tweet))
    (cands : List Tweet) : List (Except String Tweet) :=
  completion (cands.map (check_urls_in_tweet probe))

/-- The composed filtering step of the main block
(src/twitter-cleanser.py:236):
`filter_tweets_with_urls(filter_retweets(tweets))`. -/
def pipeline (ts : List Tweet) : Except String (List Tweet) :=
  match filter_retweets ts with
  | Except.error e => Except.error e
  | Except.ok kept => filter_tweets_with_urls kept

/-- A concrete line parser for counterexamples: the line "notjson" is
malformed (parse failure), every other line parses to a tweet whose text
is the line itself. -/
def parseEx (s : String) : Option Tweet :=
  if s = "notjson" then none else some { text := some s }

/-- Starting from `bad = False`, the URL loop never raises and computes the
disjunction of the per-URL dead verdicts. -/
theorem check_loop_false (probe : String → ProbeOutcome) (us : List String) :
    check_loop probe us (some false) =
      Except.ok (some (us.any fun u => probe_dead (probe u))) := by
  induction us with
  | nil => rfl
  | cons u us ih =>
    simp only [check_loop, List.any_cons]
    cases hd : probe_dead (probe u) with
    | true => simp
    | false => simpa using ih

/-- Starting from `bad = True`, the loop breaks after at most one probe and
leaves `bad = True`. -/
theorem check_loop_true (probe : String → ProbeOutcome) (us : List String) :
    check_loop probe us (some true) = Except.ok (some true) := by
  cases us with
  | nil => rfl
  | cons u us =>
    simp only [check_loop]
    cases hd : probe_dead (probe u) <;> simp

/-- One unrolling of the URL loop when the `bad` key currently holds
`False`: a dead probe breaks with `bad = True`, an alive probe continues. -/
theorem check_loop_cons_false (probe : String → ProbeOutcome) (u : String)
    (us : List String) :
    check_loop probe (u :: us) (some false) =
      if probe_dead (probe u) then Except.ok (some true)
      else check_loop probe us (some false) := by
  cases hd : probe_dead (probe u) <;> simp [check_loop, hd]

/-- The loop started from `bad = False` reads only the probe outcomes of the
URLs up to and including the first dead one. -/
theorem check_loop_agree (probe probe2 : String → ProbeOutcome)
    (us : List String)
    (h : ∀ u ∈ us.take (us.findIdx (fun v => probe_dead (probe v)) + 1),
          probe2 u = probe u) :
    check_loop probe2 us (some false) = check_loop probe us (some false) := by
  induction us with
  | nil => rfl
  | cons u us ih =>
    have hu : probe2 u = probe u := by
      apply h u
      rw [List.take_succ_cons]
      exact List.mem_cons_self u _
    rw [check_loop_cons_false, check_loop_cons_false, hu]
    cases hd : probe_dead (probe u) with
    | true => rfl
    | false =>
      refine ih ?_
      intro v hv
      apply h v
      rw [List.take_succ_cons]
      refine List.mem_cons_of_mem u ?_
      rwa [List.findIdx_cons, hd, cond_false]

/-- Unfolding of `check_urls_in_tweet` when the `urls` key is present. -/
theorem check_urls_eq (probe : String → ProbeOutcome) (t : Tweet)
    (us : List String) (hu : t.urls = some us) :
    check_urls_in_tweet probe t =
      match check_loop probe us t.bad with
      | Except.error e => Except.error e
      | Except.ok b => Except.ok { t with bad := b } := by
  unfold check_urls_in_tweet
  rw [hu]

/-- `check_urls_in_tweet` mutates at most the `bad` key: every other field
of a successfully returned dictionary equals the input's. -/
theorem check_urls_frame_aux (probe : String → ProbeOutcome) (t t' : Tweet)
    (h : check_urls_in_tweet probe t = Except.ok t') :
    t'.id = t.id ∧ t'.created_at = t.created_at ∧ t'.text = t.text ∧
      t'.retweeted = t.retweeted ∧ t'.entities_urls = t.entities_urls ∧
      t'.urls = t.urls := by
  cases hu : t.urls with
  | none =>
    unfold check_urls_in_tweet at h
    rw [hu] at h
    exact Except.noConfusion h
  | some us =>
    rw [check_urls_eq probe t us hu] at h
    cases hl : check_loop probe us t.bad with
    | error e =>
      rw [hl] at h
      exact Except.noConfusion h
    | ok b =>
      rw [hl] at h
      injection h with h2
      subst h2
      exact ⟨rfl, rfl, rfl, rfl, rfl, hu⟩

/-- Unfolding of `filter_retweets` on a cons when `is_retweet` succeeds. -/
theorem filter_retweets_cons (t : Tweet) (ts : List Tweet) (r : Bool)
    (hr : is_retweet t = Except.ok r) :
    filter_retweets (t :: ts) =
      match filter_retweets ts with
      | Except.error e => Except.error e
      | Except.ok rest =>
        if r then Except.ok rest else Except.ok (t :: rest) := by
  have hstep : filter_retweets (t :: ts) =
      match is_retweet t with
      | Except.error e => Except.error e
      | Except.ok r2 =>
        match filter_retweets ts with
        | Except.error e => Except.error e
        | Except.ok rest =>
          if r2 then Except.ok rest else Except.ok (t :: rest) := rfl
  rw [hstep, hr]

/-- Unfolding of `filter_retweets` on a cons when `is_retweet` raises. -/
theorem filter_retweets_cons_err (t : Tweet) (ts : List Tweet) (e : String)
    (hr : is_retweet t = Except.error e) :
    filter_retweets (t :: ts) = Except.error e := by
  have hstep : filter_retweets (t :: ts) =
      match is_retweet t with
      | Except.error e2 => Except.error e2
      | Except.ok r2 =>
        match filter_retweets ts with
        | Except.error e2 => Except.error e2
        | Except.ok rest =>
          if r2 then Except.ok rest else Except.ok (t :: rest) := rfl
  rw [hstep, hr]

/-- Unfolding of `filter_tweets_with_urls` on a cons whose head has the
`entities` key. -/
theorem filter_twu_cons (t : Tweet) (ts : List Tweet) (l : List UrlEntity)
    (hc : t.entities_urls = some l) :
    filter_tweets_with_urls (t :: ts) =
      if l.isEmpty then filter_tweets_with_urls ts
      else
        match filter_tweets_with_urls ts with
        | Except.error e => Except.error e
        | Except.ok rest =>
          Except.ok ({ id := t.id, created_at := t.created_at, text := t.text,
                       urls := some (l.map UrlEntity.expanded_url),
                       bad := some false } :: rest) := by
  have hstep : filter_tweets_with_urls (t :: ts) =
      match contains_url t with
      | Except.error e => Except.error e
      | Except.ok c =>
        if c then
          match t.entities_urls with
          | none => Except.error "entities"
          | some eus =>
            match filter_tweets_with_urls ts with
            | Except.error e => Except.error e
            | Except.ok rest =>
              Except.ok ({ id := t.id, created_at := t.created_at,
                           text := t.text,
                           urls := some (eus.map UrlEntity.expanded_url),
                           bad := some false } :: rest)
        else filter_tweets_with_urls ts := rfl
  have hcu : contains_url t =
      (if l.isEmpty then Except.ok false else Except.ok true) := by
    unfold contains_url
    rw [hc]
  rw [hstep, hcu, hc]
  cases hl : l.isEmpty with
  | true => rfl
  | false => rfl

/-- Unfolding of `filter_tweets_with_urls` on a cons whose head lacks the
`entities` key: the `KeyError` propagates. -/
theorem filter_twu_cons_err (t : Tweet) (ts : List Tweet)
    (hc : t.entities_urls = none) :
    filter_tweets_with_urls (t :: ts) = Except.error "entities" := by
  have hstep : filter_tweets_with_urls (t :: ts) =
      match contains_url t with
      | Except.error e => Except.error e
      | Except.ok c =>
        if c then
          match t.entities_urls with
          | none => Except.error "entities"
          | some eus =>
            match filter_tweets_with_urls ts with
            | Except.error e => Except.error e
            | Except.ok rest =>
              Except.ok ({ id := t.id, created_at := t.created_at,
                           text := t.text,
                           urls := some (eus.map UrlEntity.expanded_url),
                           bad := some false } :: rest)
        else filter_tweets_with_urls ts := rfl
  have hcu : contains_url t = Except.error "entities" := by
    unfold contains_url
    rw [hc]
  rw [hstep, hcu]

/-- Shape of the records produced by `filter_tweets_with_urls`: the
`retweeted` and `entities` keys are absent, `bad` is `False`, and `urls`
is present and non-empty. -/
theorem filter_tweets_with_urls_shape (ts a : List Tweet)
    (h : filter_tweets_with_urls ts = Except.ok a) :
    ∀ t ∈ a, t.retweeted = none ∧ t.entities_urls = none ∧
      t.bad = some false ∧ ∃ us, t.urls = some us ∧ us ≠ [] := by
  induction ts generalizing a with
  | nil =>
    intro x hx
    have h2 : ([] : List Tweet) = a := by injection h
    rw [← h2] at hx
    exact absurd hx (List.not_mem_nil x)
  | cons t ts ih =>
    cases hc : t.entities_urls with
    | none =>
      rw [filter_twu_cons_err t ts hc] at h
      exact Except.noConfusion h
    | some l =>
      rw [filter_twu_cons t ts l hc] at h
      cases hl : l.isEmpty with
      | true =>
        rw [hl] at h
        simp at h
        exact ih a h
      | false =>
        rw [hl] at h
        simp at h
        cases hr : filter_tweets_with_urls ts with
        | error e =>
          rw [hr] at h
          exact Except.noConfusion h
        | ok rest =>
          rw [hr] at h
          injection h with h2
          subst h2
          intro x hx
          rcases List.mem_cons.mp hx with hx1 | hx2
          · subst hx1
            refine ⟨rfl, rfl, rfl, l.map UrlEntity.expanded_url, rfl, ?_⟩
            intro hemp
            rw [List.map_eq_nil_iff] at hemp
            subst hemp
            simp at hl
          · exact ih rest hr x hx2

/-- Claim C1: for a candidate whose `bad` flag is `False` on entry,
`check_urls_in_tweet` succeeds; the returned `bad` is `True` iff some URL in
the list probes dead, so if every URL probes alive it is `False`; and the
result depends only on the probe outcomes of the URLs up to and including
the first dead one (taken in list order) — URLs after the first dead one
are never probed. -/
theorem check_urls_in_tweet_spec (probe : String → ProbeOutcome) (t : Tweet)
    (us : List String) (hb : t.bad = some false) (hu : t.urls = some us) :
    ∃ t', check_urls_in_tweet probe t = Except.ok t' ∧
      t'.bad = some (us.any fun u => probe_dead (probe u)) ∧
      ((∀ u ∈ us, probe_dead (probe u) = false) → t'.bad = some false) ∧
      ∀ probe2 : String → ProbeOutcome,
        (∀ u ∈ us.take (us.findIdx (fun v => probe_dead (probe v)) + 1),
          probe2 u = probe u) →
        check_urls_in_tweet probe2 t = check_urls_in_tweet probe t := by
  refine ⟨{ t with bad := some (us.any fun u => probe_dead (probe u)) },
    ?_, rfl, ?_, ?_⟩
  · rw [check_urls_eq probe t us hu, hb, check_loop_false]
  · intro hall
    have hany : (us.any fun u => probe_dead (probe u)) = false := by
      simp only [List.any_eq_false]
      intro u hu2
      simp [hall u hu2]
    simp [hany]
  · intro probe2 hagree
    rw [check_urls_eq probe t us hu, check_urls_eq probe2 t us hu, hb,
      check_loop_agree probe probe2 us hagree]

/-- Witness for C1: three URLs, the second dead (HTTP 404); the candidate
comes back marked bad. -/
theorem check_urls_in_tweet_spec_witness :
    ∃ t', check_urls_in_tweet
        (fun u => if u = "http://dead" then ProbeOutcome.status 404
                  else ProbeOutcome.status 200)
        { urls := some ["http://a", "http://dead", "http://b"],
          bad := some false } = Except.ok t' ∧
      t'.bad = some true := by
  obtain ⟨t', h1, h2, -, -⟩ := check_urls_in_tweet_spec
    (fun u => if u = "http://dead" then ProbeOutcome.status 404
              else ProbeOutcome.status 200)
    { urls := some ["http://a", "http://dead", "http://b"], bad := some false }
    ["http://a", "http://dead", "http://b"] rfl rfl
  refine ⟨t', h1, ?_⟩
  rw [h2]
  decide

/-- Claim C2: a URL probed by `check_urls_in_tweet` is classified dead
exactly when the HEAD status code is in the blocklist
400, 401, 402, 404, 406, 410, 413, 500, 502, 504, or the request times out,
or a connection-level failure occurs; any other status — e.g. 200, 301 or
403 — is alive.  Probing a one-URL candidate records exactly this verdict
in `bad`. -/
theorem probe_classification (probe : String → ProbeOutcome) (u : String) :
    check_urls_in_tweet probe { urls := some [u], bad := some false } =
      Except.ok { urls := some [u], bad := some (probe_dead (probe u)) } ∧
    (∀ code : Nat,
      probe_dead (ProbeOutcome.status code) = bad_status.contains code) ∧
    probe_dead ProbeOutcome.timeout = true ∧
    probe_dead ProbeOutcome.connError = true ∧
    (bad_status.all fun code => probe_dead (ProbeOutcome.status code)) = true ∧
    probe_dead (ProbeOutcome.status 200) = false ∧
    probe_dead (ProbeOutcome.status 301) = false ∧
    probe_dead (ProbeOutcome.status 403) = false := by
  refine ⟨?_, fun code => rfl, rfl, rfl, by decide, rfl, rfl, rfl⟩
  cases hd : probe_dead (probe u) with
  | true => simp [check_urls_in_tweet, check_loop, hd]
  | false => simp [check_urls_in_tweet, check_loop, hd]

/-- Claim C3: with the `retweeted` and `text` keys present, `is_retweet`
succeeds and returns true iff the `retweeted` flag is true or the text
starts with the literal, case-sensitive "RT" (no trimming of leading
whitespace). -/
theorem is_retweet_spec (t : Tweet) (r : Bool) (s : String)
    (hr : t.retweeted = some r) (ht : t.text = some s) :
    is_retweet t = Except.ok (r || startswith s "RT") ∧
      (is_retweet t = Except.ok true ↔
        r = true ∨ startswith s "RT" = true) := by
  have h1 : is_retweet t = Except.ok (r || startswith s "RT") := by
    unfold is_retweet
    rw [hr]
    cases r with
    | true => rfl
    | false =>
      rw [ht]
      show (if startswith s "RT" = true then Except.ok true
            else Except.ok false) = Except.ok (false || startswith s "RT")
      cases hs : startswith s "RT" <;> simp
  refine ⟨h1, ?_⟩
  rw [h1]
  cases r <;> cases hs : startswith s "RT" <;> simp

/-- Witness for C3: a leading space defeats the "RT" check, so with
`retweeted = False` the tweet is not a retweet. -/
theorem is_retweet_spec_witness :
    is_retweet { retweeted := some false, text := some " RT x" } =
      Except.ok false := by
  rw [(is_retweet_spec { retweeted := some false, text := some " RT x" }
    false " RT x" rfl rfl).1]
  exact congrArg Except.ok (by decide)

/-- Claim C9: `check_urls_in_tweet` returns the same candidate record with
only the `bad` field possibly changed: the `id`, `created_at`, `text` and
`urls` fields of the returned candidate equal those of the input. -/
theorem check_urls_in_tweet_frame (probe : String → ProbeOutcome)
    (t t' : Tweet) (h : check_urls_in_tweet probe t = Except.ok t') :
    t'.id = t.id ∧ t'.created_at = t.created_at ∧ t'.text = t.text ∧
      t'.urls = t.urls := by
  obtain ⟨h1, h2, h3, -, -, h6⟩ := check_urls_frame_aux probe t t' h
  exact ⟨h1, h2, h3, h6⟩

/-- Witness for C9 at a concrete candidate whose single URL probes dead. -/
theorem check_urls_in_tweet_frame_witness :
    ({ id := some 7, created_at := some "mon", text := some "x",
       urls := some ["u"], bad := some true } : Tweet).id =
      ({ id := some 7, created_at := some "mon", text := some "x",
         urls := some ["u"], bad := some false } : Tweet).id ∧
    ({ id := some 7, created_at := some "mon", text := some "x",
       urls := some ["u"], bad := some true } : Tweet).created_at =
      ({ id := some 7, created_at := some "mon", text := some "x",
         urls := some ["u"], bad := some false } : Tweet).created_at ∧
    ({ id := some 7, created_at := some "mon", text := some "x",
       urls := some ["u"], bad := some true } : Tweet).text =
      ({ id := some 7, created_at := some "mon", text := some "x",
         urls := some ["u"], bad := some false } : Tweet).text ∧
    ({ id := some 7, created_at := some "mon", text := some "x",
       urls := some ["u"], bad := some true } : Tweet).urls =
      ({ id := some 7, created_at := some "mon", text := some "x",
         urls := some ["u"], bad := some false } : Tweet).urls :=
  check_urls_in_tweet_frame (fun _ => ProbeOutcome.status 404)
    { id := some 7, created_at := some "mon", text := some "x",
      urls := some ["u"], bad := some false }
    { id := some 7, created_at := some "mon", text := some "x",
      urls := some ["u"], bad := some true } rfl

/-- Claim C10: when the `bad` flag is already `True` on entry,
`check_urls_in_tweet` succeeds and the returned `bad` flag is still `True`,
whatever the probe outcomes for its URLs. -/
theorem check_urls_in_tweet_monotone (probe : String → ProbeOutcome)
    (t : Tweet) (us : List String) (hb : t.bad = some true)
    (hu : t.urls = some us) :
    ∃ t', check_urls_in_tweet probe t = Except.ok t' ∧
      t'.bad = some true := by
  refine ⟨{ t with bad := some true }, ?_, rfl⟩
  rw [check_urls_eq probe t us hu, hb, check_loop_true]

/-- Witness for C10: both URLs probe alive (HTTP 200), yet the flag stays
`True`. -/
theorem check_urls_in_tweet_monotone_witness :
    ∃ t', check_urls_in_tweet (fun _ => ProbeOutcome.status 200)
        { urls := some ["u1", "u2"], bad := some true } = Except.ok t' ∧
      t'.bad = some true :=
  check_urls_in_tweet_monotone (fun _ => ProbeOutcome.status 200)
    { urls := some ["u1", "u2"], bad := some true } ["u1", "u2"] rfl rfl

/-- Claim C4: on posts whose `entities` key is present,
`filter_tweets_with_urls` keeps exactly the posts with a non-empty
`entities.urls` list, and maps each kept post to the record holding its
`id`, `created_at` and `text`, the `expanded_url` of each entry in source
order under `urls`, and `bad` initialized to `False`. -/
theorem filter_tweets_with_urls_spec (ts : List Tweet)
    (h : ∀ t ∈ ts, t.entities_urls ≠ none) :
    filter_tweets_with_urls ts = Except.ok
      ((ts.filter fun t => !(t.entities_urls.getD []).isEmpty).map fun t =>
        { id := t.id, created_at := t.created_at, text := t.text,
          urls := some ((t.entities_urls.getD []).map UrlEntity.expanded_url),
          bad := some false }) := by
  induction ts with
  | nil => rfl
  | cons t ts ih =>
    have ht : t.entities_urls ≠ none := h t (List.mem_cons_self t ts)
    obtain ⟨l, hl⟩ := Option.ne_none_iff_exists'.mp ht
    have ih2 := ih fun x hx => h x (List.mem_cons_of_mem t hx)
    rw [filter_twu_cons t ts l hl]
    cases he : l.isEmpty with
    | true => simp [List.filter_cons, hl, he, ih2]
    | false => simp [List.filter_cons, hl, he, ih2]

/-- Witness for C4: one post with two links is kept and projected, one post
with an empty `entities.urls` list is dropped. -/
theorem filter_tweets_with_urls_spec_witness :
    filter_tweets_with_urls
      [{ id := some 1, created_at := some "mon", text := some "two links",
         retweeted := some false,
         entities_urls := some [{ expanded_url := "http://x" },
                                { expanded_url := "http://y" }] },
       { id := some 2, created_at := some "tue", text := some "no links",
         retweeted := some false, entities_urls := some [] }] = Except.ok
      (([({ id := some 1, created_at := some "mon",
            text := some "two links", retweeted := some false,
            entities_urls := some [{ expanded_url := "http://x" },
                                   { expanded_url := "http://y" }] } : Tweet),
         { id := some 2, created_at := some "tue", text := some "no links",
           retweeted := some false, entities_urls := some [] }].filter
          fun t => !(t.entities_urls.getD []).isEmpty).map fun t =>
        { id := t.id, created_at := t.created_at, text := t.text,
          urls := some ((t.entities_urls.getD []).map UrlEntity.expanded_url),
          bad := some false }) :=
  filter_tweets_with_urls_spec
    [{ id := some 1, created_at := some "mon", text := some "two links",
       retweeted := some false,
       entities_urls := some [{ expanded_url := "http://x" },
                              { expanded_url := "http://y" }] },
     { id := some 2, created_at := some "tue", text := some "no links",
       retweeted := some false, entities_urls := some [] }] (by decide)

/-- Claim C8: every candidate produced by `filter_tweets_with_urls` has a
non-empty `urls` sequence, and the invariant survives evaluation: a
candidate successfully returned by `check_urls_in_tweet` still has the
same non-empty `urls` sequence. -/
theorem candidate_urls_nonempty (ts a : List Tweet)
    (h : filter_tweets_with_urls ts = Except.ok a) :
    (∀ t ∈ a, ∃ us, t.urls = some us ∧ us ≠ []) ∧
    (∀ (probe : String → ProbeOutcome) (t t' : Tweet), t ∈ a →
      check_urls_in_tweet probe t = Except.ok t' →
      ∃ us, t'.urls = some us ∧ us ≠ []) := by
  have main := filter_tweets_with_urls_shape ts a h
  refine ⟨fun t ht => (main t ht).2.2.2, ?_⟩
  intro probe t t' ht hch
  obtain ⟨us, hus, hne⟩ := (main t ht).2.2.2
  obtain ⟨-, -, -, -, -, h6⟩ := check_urls_frame_aux probe t t' hch
  exact ⟨us, h6.trans hus, hne⟩

/-- Witness for C8 at a one-post input whose candidate has one URL. -/
theorem candidate_urls_nonempty_witness :
    (∀ t ∈ [({ text := some "x", urls := some ["http://x"],
               bad := some false } : Tweet)],
      ∃ us, t.urls = some us ∧ us ≠ []) ∧
    (∀ (probe : String → ProbeOutcome) (t t' : Tweet),
      t ∈ [({ text := some "x", urls := some ["http://x"],
              bad := some false } : Tweet)] →
      check_urls_in_tweet probe t = Except.ok t' →
      ∃ us, t'.urls = some us ∧ us ≠ []) :=
  candidate_urls_nonempty
    [{ text := some "x", entities_urls := some [{ expanded_url := "http://x" }] }]
    [{ text := some "x", urls := some ["http://x"], bad := some false }] rfl

/-- Unfolding of `pipeline` when the retweet filter succeeds. -/
theorem pipeline_eq (ts kept : List Tweet)
    (h : filter_retweets ts = Except.ok kept) :
    pipeline ts = filter_tweets_with_urls kept := by
  unfold pipeline
  rw [h]

/-- Unfolding of `pipeline` when the retweet filter raises. -/
theorem pipeline_err (ts : List Tweet) (e : String)
    (h : filter_retweets ts = Except.error e) :
    pipeline ts = Except.error e := by
  unfold pipeline
  rw [h]

/-- Counterexample to claim C7 as stated: on a single ordinary post with one
link, one application of the composed filtering step yields one candidate
record, but the second application fails with `KeyError: 'retweeted'`
(candidate records do not carry the `retweeted` key), so applying the step
twice does not yield the same records as applying it once. -/
theorem pipeline_not_idempotent :
    pipeline [{ id := some 1, created_at := some "mon", text := some "hi",
                retweeted := some false,
                entities_urls := some [{ expanded_url := "http://x" }] }] =
      Except.ok [{ id := some 1, created_at := some "mon", text := some "hi",
                   urls := some ["http://x"], bad := some false }] ∧
    Except.bind
        (pipeline [{ id := some 1, created_at := some "mon",
                     text := some "hi", retweeted := some false,
                     entities_urls := some [{ expanded_url := "http://x" }] }])
        pipeline = Except.error "retweeted" ∧
    Except.bind
        (pipeline [{ id := some 1, created_at := some "mon",
                     text := some "hi", retweeted := some false,
                     entities_urls := some [{ expanded_url := "http://x" }] }])
        pipeline ≠
      pipeline [{ id := some 1, created_at := some "mon", text := some "hi",
                  retweeted := some false,
                  entities_urls := some [{ expanded_url := "http://x" }] }] := by
  refine ⟨rfl, rfl, ?_⟩
  intro hcontra
  exact Except.noConfusion hcontra

/-- Claim C7 as amended: the second application of the composed filtering
step agrees with the first exactly on inputs whose first application is
empty; whenever the first application yields at least one candidate, the
second application fails with `KeyError: 'retweeted'`, because candidate
records do not carry the `retweeted` key. -/
theorem pipeline_twice_spec (ts a : List Tweet)
    (h : pipeline ts = Except.ok a) :
    (a = [] → Except.bind (pipeline ts) pipeline = pipeline ts) ∧
    (∀ c rest, a = c :: rest →
      Except.bind (pipeline ts) pipeline = Except.error "retweeted") := by
  obtain ⟨kept, hk, hf⟩ : ∃ kept, filter_retweets ts = Except.ok kept ∧
      filter_tweets_with_urls kept = Except.ok a := by
    unfold pipeline at h
    cases hk : filter_retweets ts with
    | error e => rw [hk] at h; exact Except.noConfusion h
    | ok kept => rw [hk] at h; exact ⟨kept, rfl, h⟩
  constructor
  · intro ha
    subst ha
    rw [h]
    rfl
  · intro c rest ha
    subst ha
    rw [h]
    show pipeline (c :: rest) = Except.error "retweeted"
    have hret : c.retweeted = none :=
      (filter_tweets_with_urls_shape kept (c :: rest) hf c
        (List.mem_cons_self c rest)).1
    have hisr : is_retweet c = Except.error "retweeted" := by
      unfold is_retweet
      rw [hret]
    exact pipeline_err (c :: rest) "retweeted"
      (filter_retweets_cons_err c rest "retweeted" hisr)

/-- Witness for the amended C7 at a one-post input whose first application
is non-empty. -/
theorem pipeline_twice_spec_witness :
    (([({ id := some 2, created_at := some "tue", text := some "hello",
          urls := some ["http://y"], bad := some false } : Tweet)] :
        List Tweet) = [] →
      Except.bind
          (pipeline [{ id := some 2, created_at := some "tue",
                       text := some "hello", retweeted := some false,
                       entities_urls := some [{ expanded_url := "http://y" }] }])
          pipeline =
        pipeline [{ id := some 2, created_at := some "tue",
                    text := some "hello", retweeted := some false,
                    entities_urls := some [{ expanded_url := "http://y" }] }]) ∧
    (∀ c rest,
      ([({ id := some 2, created_at := some "tue", text := some "hello",
           urls := some ["http://y"], bad := some false } : Tweet)] :
          List Tweet) = c :: rest →
      Except.bind
          (pipeline [{ id := some 2, created_at := some "tue",
                       text := some "hello", retweeted := some false,
                       entities_urls := some [{ expanded_url := "http://y" }] }])
          pipeline = Except.error "retweeted") :=
  pipeline_twice_spec
    [{ id := some 2, created_at := some "tue", text := some "hello",
       retweeted := some false,
       entities_urls := some [{ expanded_url := "http://y" }] }]
    [{ id := some 2, created_at := some "tue", text := some "hello",
       urls := some ["http://y"], bad := some false }] rfl

/-- Counterexample to claim C6 as stated: with a malformed second line, the
well-formed third line "c" is parsed by `parseEx` yet absent from the
result — `load_tweets_from_file` returns only the lines before the
malformed one, not every well-formed line of the file. -/
theorem load_tweets_counterexample :
    parseEx "c" = some { text := some "c" } ∧
    load_tweets_from_file parseEx ["a", "notjson", "c"] =
      [{ text := some "a" }] ∧
    ({ text := some "c" } : Tweet) ∉
      load_tweets_from_file parseEx ["a", "notjson", "c"] := by
  refine ⟨rfl, rfl, ?_⟩
  decide

/-- Claim C6 as amended: when a dump file contains a malformed line, the
well-formed lines before it are parsed and returned, and the malformed
line aborts the loop (with a message), so it and every line after it —
well-formed or not — are dropped from the result. -/
theorem load_tweets_stops_at_first_malformed (parse : String → Option Tweet)
    (pre : List String) (m : String) (rest : List String)
    (hpre : ∀ l ∈ pre, (parse l).isSome) (hm : parse m = none) :
    load_tweets_from_file parse (pre ++ m :: rest) = pre.filterMap parse := by
  induction pre with
  | nil =>
    show load_tweets_from_file parse (m :: rest) = []
    have hstep : load_tweets_from_file parse (m :: rest) =
        match parse m with
        | some t => t :: load_tweets_from_file parse rest
        | none => [] := rfl
    rw [hstep, hm]
  | cons l pre ih =>
    obtain ⟨t, ht⟩ := Option.isSome_iff_exists.mp
      (hpre l (List.mem_cons_self l pre))
    have ih2 := ih fun x hx => hpre x (List.mem_cons_of_mem l hx)
    show load_tweets_from_file parse (l :: (pre ++ m :: rest)) = _
    have hstep : load_tweets_from_file parse (l :: (pre ++ m :: rest)) =
        match parse l with
        | some t2 => t2 :: load_tweets_from_file parse (pre ++ m :: rest)
        | none => [] := rfl
    rw [hstep, ht, ih2, List.filterMap_cons, ht]

/-- Witness for the amended C6: one good line, one malformed line, one good
line after it; only the first line's tweet is returned. -/
theorem load_tweets_stops_at_first_malformed_witness :
    load_tweets_from_file parseEx (["a"] ++ "notjson" :: ["c"]) =
      ["a"].filterMap parseEx :=
  load_tweets_stops_at_first_malformed parseEx ["a"] "notjson" ["c"]
    (by decide) (by decide)

/-- Claim C5: the concurrent scan is a permutation of the sequential map of
`check_urls_in_tweet` over the candidates, for every worker count and every
arrival order; hence any two worker counts give the same result multiset,
and the same multiset of bad candidates after any selection. -/
theorem scanAll_worker_count_irrelevant (probe : String → ProbeOutcome)
    (cands : List Tweet) (w1 w2 : Nat)
    (s1 s2 : List (Except String Tweet) → List (Except String Tweet))
    (h1 : ∀ l, List.Perm (s1 l) l) (h2 : ∀ l, List.Perm (s2 l) l) :
    (scanAll probe w1 s1 cands : Multiset (Except String Tweet)) =
      (↑(cands.map (check_urls_in_tweet probe)) :
        Multiset (Except String Tweet)) ∧
    (scanAll probe w2 s2 cands : Multiset (Except String Tweet)) =
      (↑(cands.map (check_urls_in_tweet probe)) :
        Multiset (Except String Tweet)) ∧
    List.Perm (scanAll probe w1 s1 cands) (scanAll probe w2 s2 cands) ∧
    ∀ q : Except String Tweet → Bool,
      List.Perm ((scanAll probe w1 s1 cands).filter q)
        ((scanAll probe w2 s2 cands).filter q) := by
  have p1 : List.Perm (scanAll probe w1 s1 cands)
      (cands.map (check_urls_in_tweet probe)) := h1 _
  have p2 : List.Perm (scanAll probe w2 s2 cands)
      (cands.map (check_urls_in_tweet probe)) := h2 _
  refine ⟨Multiset.coe_eq_coe.mpr p1, Multiset.coe_eq_coe.mpr p2,
    p1.trans p2.symm, ?_⟩
  intro q
  exact (p1.trans p2.symm).filter q

/-- Witness for C5: worker counts 1 and 8 with the identity arrival order on
a one-candidate input. -/
theorem scanAll_worker_count_irrelevant_witness :
    (scanAll (fun _ => ProbeOutcome.status 200) 1 id
        [{ urls := some ["u"], bad := some false }] :
      Multiset (Except String Tweet)) =
      (↑([({ urls := some ["u"], bad := some false } : Tweet)].map
          (check_urls_in_tweet fun _ => ProbeOutcome.status 200)) :
        Multiset (Except String Tweet)) ∧
    (scanAll (fun _ => ProbeOutcome.status 200) 8 id
        [{ urls := some ["u"], bad := some false }] :
      Multiset (Except String Tweet)) =
      (↑([({ urls := some ["u"], bad := some false } : Tweet)].map
          (check_urls_in_tweet fun _ => ProbeOutcome.status 200)) :
        Multiset (Except String Tweet)) ∧
    List.Perm
      (scanAll (fun _ => ProbeOutcome.status 200) 1 id
        [{ urls := some ["u"], bad := some false }])
      (scanAll (fun _ => ProbeOutcome.status 200) 8 id
        [{ urls := some ["u"], bad := some false }]) ∧
    ∀ q : Except String Tweet → Bool,
      List.Perm
        ((scanAll (fun _ => ProbeOutcome.status 200) 1 id
          [{ urls := some ["u"], bad := some false }]).filter q)
        ((scanAll (fun _ => ProbeOutcome.status 200) 8 id
          [{ urls := some ["u"], bad := some false }]).filter q) :=
  scanAll_worker_count_irrelevant (fun _ => ProbeOutcome.status 200)
    [{ urls := some ["u"], bad := some false }] 1 8 id id
    (fun l => List.Perm.refl l) (fun l => List.Perm.refl l)

end TwitterCleanser
